import Mathlib

/-!
Shallow embedding of the workflow-orchestration core of the repository
(`src/workflow/workflow_state.py`, `src/workflow/workflow_nodes.py`,
`src/workflow/workflow_graph.py`).

Modelling conventions:
* Python dict results returned by the five collaborator agents are modelled as
  structures holding the keys the core actually reads (`status`, `code`,
  `fixed_code`, `readme`); a value of `none` means the key is absent or `None`,
  matching `dict.get(k)`.
* Python truthiness of `dict.get(k)` on the string-valued keys read by the core
  is `pyTruthy`: absent keys and the empty string are falsy.
* Each collaborator call (`await agent.execute(...)`) is an opaque operation
  that either returns a result or raises; it is modelled as an
  `Except String r` value supplied by an `Oracle`.  The `context` dictionary of
  `WorkflowState` is only ever written by the core and read back by the opaque
  collaborators, never by the routing logic or the state queries, so it is not
  carried in the model.
* The LangGraph-compiled graph (`_build_graph` / `ainvoke`) is modelled as the
  small-step interpreter `stepRun` / `runFuel` over a program counter `Node`,
  with the edges and conditional routing exactly as registered in
  `_build_graph`.
-/

namespace CodeAgent

/-- Enum `WorkflowStatus` of `workflow_state.py`. -/
inductive WorkflowStatus where
  | pending
  | planning
  | coding
  | testing
  | debugging
  | documenting
  | completed
  | failed
deriving DecidableEq, Repr

/-- The `.value` string of each `WorkflowStatus` member. -/
def WorkflowStatus.value : WorkflowStatus → String
  | .pending => "pending"
  | .planning => "planning"
  | .coding => "coding"
  | .testing => "testing"
  | .debugging => "debugging"
  | .documenting => "documenting"
  | .completed => "completed"
  | .failed => "failed"

/-- Result dict of the tester agent; the core reads only `get("status")`. -/
structure TesterResult where
  status : Option String
deriving DecidableEq, Repr

/-- Result dict of the coder agent; the core reads only `get("code")`. -/
structure CoderResult where
  code : Option String
deriving DecidableEq, Repr

/-- Result dict of the debugger agent; the core reads only `get("fixed_code")`. -/
structure DebuggerResult where
  fixed_code : Option String
deriving DecidableEq, Repr

/-- Result dict of the documenter agent; the core reads only `get("readme")`. -/
structure DocumenterResult where
  readme : Option String
deriving DecidableEq, Repr

/-- Python truthiness of `dict.get(key)` for a string-valued key: falsy when
the key is absent (`None`) and when the value is the empty string. -/
def pyTruthy : Option String → Bool
  | none => false
  | some s => s != ""

/-- Structure `WorkflowState` of `workflow_state.py` (the fields read or written by the
orchestration core; the `context` dict is omitted, see the module comment). -/
structure WorkflowState where
  workflow_id : String
  user_request : String
  status : WorkflowStatus := .pending
  current_task : Option String := none
  completed_tasks : List String := []
  failed_tasks : List String := []
  planner_result : Option String := none
  coder_result : Option CoderResult := none
  tester_result : Option TesterResult := none
  debugger_result : Option DebuggerResult := none
  documenter_result : Option DocumenterResult := none
  iteration_count : Nat := 0
  max_iterations : Nat := 3
  last_error : Option String := none
  error_history : List String := []
  final_code : Option String := none
  final_documentation : Option String := none
deriving DecidableEq, Repr

namespace WorkflowState

/-- Method `WorkflowState.update_status`. -/
def update_status (s : WorkflowState) (new_status : WorkflowStatus) : WorkflowState :=
  { s with status := new_status }

/-- Method `WorkflowState.add_completed_task`: append only when not already present. -/
def add_completed_task (s : WorkflowState) (task : String) : WorkflowState :=
  if task ∈ s.completed_tasks then s
  else { s with completed_tasks := s.completed_tasks ++ [task] }

/-- Method `WorkflowState.add_failed_task`: append only when not already present. -/
def add_failed_task (s : WorkflowState) (task : String) : WorkflowState :=
  if task ∈ s.failed_tasks then s
  else { s with failed_tasks := s.failed_tasks ++ [task] }

/-- Method `WorkflowState.add_error`: overwrite `last_error`, append to history. -/
def add_error (s : WorkflowState) (error : String) : WorkflowState :=
  { s with last_error := some error, error_history := s.error_history ++ [error] }

/-- Method `WorkflowState.increment_iteration`. -/
def increment_iteration (s : WorkflowState) : WorkflowState :=
  { s with iteration_count := s.iteration_count + 1 }

/-- Method `WorkflowState.can_continue_iteration`. -/
def can_continue_iteration (s : WorkflowState) : Bool :=
  s.iteration_count < s.max_iterations

/-- Method `WorkflowState.get_latest_code`: prefer the debugger's truthy `fixed_code`,
then the coder's truthy `code`, else `None`. -/
def get_latest_code (s : WorkflowState) : Option String :=
  match s.debugger_result with
  | some d =>
      if pyTruthy d.fixed_code then d.fixed_code
      else
        match s.coder_result with
        | some c => if pyTruthy c.code then c.code else none
        | none => none
  | none =>
      match s.coder_result with
      | some c => if pyTruthy c.code then c.code else none
      | none => none

/-- Method `WorkflowState.get_test_status`. -/
def get_test_status (s : WorkflowState) : String :=
  match s.tester_result with
  | some t => t.status.getD "unknown"
  | none => "not_tested"

/-- Method `WorkflowState.needs_debugging`: tester result present with
`status == "failed"` and iteration can continue. -/
def needs_debugging (s : WorkflowState) : Bool :=
  (match s.tester_result with
   | some t => t.status == some "failed"
   | none => false)
  && s.can_continue_iteration

/-- Method `WorkflowState.is_workflow_complete`. -/
def is_workflow_complete (s : WorkflowState) : Bool :=
  s.status == .completed || s.status == .failed || !s.can_continue_iteration

end WorkflowState

/-- The dict returned by `WorkflowState.get_summary`. -/
structure Summary where
  workflow_id : String
  status : String
  iteration_count : Nat
  completed_tasks : Nat
  failed_tasks : Nat
  has_code : Bool
  test_status : String
  has_documentation : Bool
  last_error : Option String
deriving DecidableEq, Repr

/-- Method `WorkflowState.get_summary`. -/
def WorkflowState.get_summary (s : WorkflowState) : Summary :=
  { workflow_id := s.workflow_id
    status := s.status.value
    iteration_count := s.iteration_count
    completed_tasks := s.completed_tasks.length
    failed_tasks := s.failed_tasks.length
    has_code := s.get_latest_code.isSome
    test_status := s.get_test_status
    has_documentation := s.documenter_result.isSome
    last_error := s.last_error }

/-! ## Stage nodes (`workflow_nodes.py`)

Each `async def *_node(state)` first sets `status` and `current_task`, then
invokes its collaborator inside a `try`; the collaborator outcome is modelled
as an `Except String r` argument (`.error e` = the call raised with message
`e`).  The `print` calls and the `set_context` writes (read only by the opaque
collaborators) carry no information used by the core and are not modelled. -/

/-- Node `WorkflowNodes.planning_node`. -/
def planning_node (call : Except String String) (s : WorkflowState) : WorkflowState :=
  let s := s.update_status .planning
  let s := { s with current_task := some "规划开发任务" }
  match call with
  | .ok plan_result =>
      let s := { s with planner_result := some plan_result }
      s.add_completed_task "规划"
  | .error e =>
      let s := s.add_error ("规划失败: " ++ e)
      s.add_failed_task "规划"

/-- Node `WorkflowNodes.coding_node`. -/
def coding_node (call : Except String CoderResult) (s : WorkflowState) : WorkflowState :=
  let s := s.update_status .coding
  let s := { s with current_task := some "生成代码" }
  match call with
  | .ok code_result =>
      let s := { s with coder_result := some code_result }
      s.add_completed_task "编码"
  | .error e =>
      let s := s.add_error ("编码失败: " ++ e)
      s.add_failed_task "编码"

/-- Node `WorkflowNodes.testing_node`. -/
def testing_node (call : Except String TesterResult) (s : WorkflowState) : WorkflowState :=
  let s := s.update_status .testing
  let s := { s with current_task := some "执行测试" }
  match call with
  | .ok test_result =>
      let s := { s with tester_result := some test_result }
      s.add_completed_task "测试"
  | .error e =>
      let s := s.add_error ("测试失败: " ++ e)
      s.add_failed_task "测试"

/-- Node `WorkflowNodes.debugging_node`.  On collaborator success: store the result,
copy a truthy `fixed_code` into `coder_result`, record completion, and
increment the iteration counter.  On a raise: record the error and the failed
task only — `increment_iteration` is inside the `try` block and is skipped. -/
def debugging_node (call : Except String DebuggerResult) (s : WorkflowState) : WorkflowState :=
  let s := s.update_status .debugging
  let s := { s with current_task := some "调试和修复代码" }
  match call with
  | .ok debug_result =>
      let s := { s with debugger_result := some debug_result }
      let s :=
        if pyTruthy debug_result.fixed_code then
          { s with coder_result := some { code := debug_result.fixed_code } }
        else s
      let s := s.add_completed_task "调试"
      s.increment_iteration
  | .error e =>
      let s := s.add_error ("调试失败: " ++ e)
      s.add_failed_task "调试"

/-- Node `WorkflowNodes.documenting_node`.  On success: store the result, set the
final outputs, record completion and set status `COMPLETED`.  On a raise:
record the error and the failed task; status stays `DOCUMENTING`. -/
def documenting_node (call : Except String DocumenterResult) (s : WorkflowState) : WorkflowState :=
  let s := s.update_status .documenting
  let s := { s with current_task := some "生成文档" }
  match call with
  | .ok doc_result =>
      let s := { s with documenter_result := some doc_result }
      let s := { s with final_code := s.get_latest_code
                        final_documentation := some (doc_result.readme.getD "") }
      let s := s.add_completed_task "文档生成"
      s.update_status .completed
  | .error e =>
      let s := s.add_error ("文档生成失败: " ++ e)
      s.add_failed_task "文档生成"

/-- Node `WorkflowNodes.should_debug`. -/
def should_debug (s : WorkflowState) : Bool :=
  s.needs_debugging

/-- Node `WorkflowNodes.should_continue_iteration`. -/
def should_continue_iteration (s : WorkflowState) : Bool :=
  s.needs_debugging && s.can_continue_iteration

/-- Node `WorkflowNodes.should_generate_documentation`. -/
def should_generate_documentation (s : WorkflowState) : Bool :=
  match s.tester_result with
  | some t => t.status == some "passed"
  | none => false

/-! ## Routing (`workflow_graph.py`) -/

/-- Routing function `WorkflowGraph._route_after_testing`, returning the branch key string. -/
def route_after_testing (s : WorkflowState) : String :=
  if s.status == .failed then "end"
  else if !s.can_continue_iteration then "documenting"
  else if should_debug s then "debugging"
  else if should_generate_documentation s then "documenting"
  else "end"

/-- Routing function `WorkflowGraph._route_after_debugging`, returning the branch key string. -/
def route_after_debugging (s : WorkflowState) : String :=
  if s.status == .failed then "end"
  else if !s.can_continue_iteration then "documenting"
  else if should_continue_iteration s then "testing"
  else "documenting"

/-! ## The compiled graph as a small-step interpreter -/

/-- Program counter of the compiled LangGraph graph: the five nodes added in
`_build_graph` plus the `END` sentinel. -/
inductive Node where
  | planning
  | coding
  | testing
  | debugging
  | documenting
  | END
deriving DecidableEq, Repr

/-- The outcome of each collaborator call of a run.  `planning`, `coding` and
`documenting` execute at most once per run; `testing` and `debugging` are
indexed by how many visits to that node happened before. -/
structure Oracle where
  planner : Except String String
  coder : Except String CoderResult
  tester : Nat → Except String TesterResult
  debugger : Nat → Except String DebuggerResult
  documenter : Except String DocumenterResult

/-- Interpreter state: current node, workflow state, visit counters for the two
loop nodes, and the (ghost) trace of nodes executed so far. -/
structure Driver where
  node : Node
  state : WorkflowState
  tvisits : Nat
  dvisits : Nat
  trace : List Node
deriving Repr

/-- One step of the compiled graph: execute the current node, then follow the
static edge (`planning→coding`, `coding→testing`, `documenting→END`) or the
conditional edge table registered for `testing` and `debugging`. -/
def stepRun (o : Oracle) (d : Driver) : Driver :=
  match d.node with
  | .planning =>
      { d with state := planning_node o.planner d.state
               node := .coding
               trace := d.trace ++ [.planning] }
  | .coding =>
      { d with state := coding_node o.coder d.state
               node := .testing
               trace := d.trace ++ [.coding] }
  | .testing =>
      let s := testing_node (o.tester d.tvisits) d.state
      let next := route_after_testing s
      { d with state := s
               tvisits := d.tvisits + 1
               trace := d.trace ++ [.testing]
               node :=
                 if next == "debugging" then .debugging
                 else if next == "documenting" then .documenting
                 else .END }
  | .debugging =>
      let s := debugging_node (o.debugger d.dvisits) d.state
      let next := route_after_debugging s
      { d with state := s
               dvisits := d.dvisits + 1
               trace := d.trace ++ [.debugging]
               node :=
                 if next == "testing" then .testing
                 else if next == "documenting" then .documenting
                 else .END }
  | .documenting =>
      { d with state := documenting_node o.documenter d.state
               node := .END
               trace := d.trace ++ [.documenting] }
  | .END => d

/-- Iterate `stepRun` until `END` or until the fuel runs out (the compiled
graph itself has no step bound; fuel makes the interpreter total). -/
def runFuel (o : Oracle) (fuel : Nat) (d : Driver) : Driver :=
  match fuel with
  | 0 => d
  | fuel + 1 => if d.node == .END then d else runFuel o fuel (stepRun o d)

/-- The initial `WorkflowState` built by `WorkflowGraph.execute`. -/
def initialState (workflow_id user_request : String) (max_iterations : Nat) : WorkflowState :=
  { workflow_id := workflow_id
    user_request := user_request
    status := .pending
    max_iterations := max_iterations }

/-- The interpreter's start configuration: entry point `planning`. -/
def initDriver (workflow_id user_request : String) (max_iterations : Nat) : Driver :=
  { node := .planning
    state := initialState workflow_id user_request max_iterations
    tvisits := 0
    dvisits := 0
    trace := [] }

/-! ## `WorkflowGraph.execute` result assembly -/

/-- The dict returned by `WorkflowGraph.execute`. -/
structure RunResult where
  success : Bool
  error : Option String
  workflow_id : String
  status : String
  final_code : Option String
  final_documentation : Option String
  summary : Option Summary
  iteration_count : Nat
  completed_tasks : List String
  failed_tasks : List String
  error_history : List String
deriving Repr

/-- Function `WorkflowGraph.execute`'s result assembly: on a normal graph run, report
from the final state; on an exception escaping `self.graph.ainvoke`, catch it
and report a failed `RunResult` carrying the fault message (the exception is
never re-raised). -/
def execute (outcome : Except String WorkflowState) (workflow_id : String) : RunResult :=
  match outcome with
  | .ok final_state =>
      { success := final_state.status == .completed
        error := none
        workflow_id := final_state.workflow_id
        status := final_state.status.value
        final_code := final_state.final_code
        final_documentation := final_state.final_documentation
        summary := some final_state.get_summary
        iteration_count := final_state.iteration_count
        completed_tasks := final_state.completed_tasks
        failed_tasks := final_state.failed_tasks
        error_history := final_state.error_history }
  | .error e =>
      let error_msg := "工作流执行异常: " ++ e
      { success := false
        error := some error_msg
        workflow_id := workflow_id
        status := "failed"
        final_code := none
        final_documentation := none
        summary := none
        iteration_count := 0
        completed_tasks := []
        failed_tasks := []
        error_history := [error_msg] }

/-! ## Field-preservation lemmas for the state operations -/

namespace WorkflowState

@[simp] lemma update_status_status (s : WorkflowState) (st : WorkflowStatus) :
    (s.update_status st).status = st := rfl

@[simp] lemma update_status_iteration_count (s : WorkflowState) (st : WorkflowStatus) :
    (s.update_status st).iteration_count = s.iteration_count := rfl

@[simp] lemma update_status_max_iterations (s : WorkflowState) (st : WorkflowStatus) :
    (s.update_status st).max_iterations = s.max_iterations := rfl

@[simp] lemma update_status_tester_result (s : WorkflowState) (st : WorkflowStatus) :
    (s.update_status st).tester_result = s.tester_result := rfl

@[simp] lemma update_status_debugger_result (s : WorkflowState) (st : WorkflowStatus) :
    (s.update_status st).debugger_result = s.debugger_result := rfl

@[simp] lemma update_status_coder_result (s : WorkflowState) (st : WorkflowStatus) :
    (s.update_status st).coder_result = s.coder_result := rfl

@[simp] lemma update_status_final_code (s : WorkflowState) (st : WorkflowStatus) :
    (s.update_status st).final_code = s.final_code := rfl

@[simp] lemma update_status_final_documentation (s : WorkflowState) (st : WorkflowStatus) :
    (s.update_status st).final_documentation = s.final_documentation := rfl

@[simp] lemma update_status_completed_tasks (s : WorkflowState) (st : WorkflowStatus) :
    (s.update_status st).completed_tasks = s.completed_tasks := rfl

@[simp] lemma update_status_failed_tasks (s : WorkflowState) (st : WorkflowStatus) :
    (s.update_status st).failed_tasks = s.failed_tasks := rfl

@[simp] lemma add_completed_task_status (s : WorkflowState) (t : String) :
    (s.add_completed_task t).status = s.status := by
  unfold add_completed_task; split <;> rfl

@[simp] lemma add_completed_task_iteration_count (s : WorkflowState) (t : String) :
    (s.add_completed_task t).iteration_count = s.iteration_count := by
  unfold add_completed_task; split <;> rfl

@[simp] lemma add_completed_task_max_iterations (s : WorkflowState) (t : String) :
    (s.add_completed_task t).max_iterations = s.max_iterations := by
  unfold add_completed_task; split <;> rfl

@[simp] lemma add_completed_task_tester_result (s : WorkflowState) (t : String) :
    (s.add_completed_task t).tester_result = s.tester_result := by
  unfold add_completed_task; split <;> rfl

@[simp] lemma add_completed_task_debugger_result (s : WorkflowState) (t : String) :
    (s.add_completed_task t).debugger_result = s.debugger_result := by
  unfold add_completed_task; split <;> rfl

@[simp] lemma add_completed_task_coder_result (s : WorkflowState) (t : String) :
    (s.add_completed_task t).coder_result = s.coder_result := by
  unfold add_completed_task; split <;> rfl

@[simp] lemma add_completed_task_final_code (s : WorkflowState) (t : String) :
    (s.add_completed_task t).final_code = s.final_code := by
  unfold add_completed_task; split <;> rfl

@[simp] lemma add_completed_task_final_documentation (s : WorkflowState) (t : String) :
    (s.add_completed_task t).final_documentation = s.final_documentation := by
  unfold add_completed_task; split <;> rfl

@[simp] lemma add_completed_task_failed_tasks (s : WorkflowState) (t : String) :
    (s.add_completed_task t).failed_tasks = s.failed_tasks := by
  unfold add_completed_task; split <;> rfl

@[simp] lemma add_failed_task_status (s : WorkflowState) (t : String) :
    (s.add_failed_task t).status = s.status := by
  unfold add_failed_task; split <;> rfl

@[simp] lemma add_failed_task_iteration_count (s : WorkflowState) (t : String) :
    (s.add_failed_task t).iteration_count = s.iteration_count := by
  unfold add_failed_task; split <;> rfl

@[simp] lemma add_failed_task_max_iterations (s : WorkflowState) (t : String) :
    (s.add_failed_task t).max_iterations = s.max_iterations := by
  unfold add_failed_task; split <;> rfl

@[simp] lemma add_failed_task_tester_result (s : WorkflowState) (t : String) :
    (s.add_failed_task t).tester_result = s.tester_result := by
  unfold add_failed_task; split <;> rfl

@[simp] lemma add_failed_task_debugger_result (s : WorkflowState) (t : String) :
    (s.add_failed_task t).debugger_result = s.debugger_result := by
  unfold add_failed_task; split <;> rfl

@[simp] lemma add_failed_task_coder_result (s : WorkflowState) (t : String) :
    (s.add_failed_task t).coder_result = s.coder_result := by
  unfold add_failed_task; split <;> rfl

@[simp] lemma add_failed_task_final_code (s : WorkflowState) (t : String) :
    (s.add_failed_task t).final_code = s.final_code := by
  unfold add_failed_task; split <;> rfl

@[simp] lemma add_failed_task_final_documentation (s : WorkflowState) (t : String) :
    (s.add_failed_task t).final_documentation = s.final_documentation := by
  unfold add_failed_task; split <;> rfl

@[simp] lemma add_failed_task_completed_tasks (s : WorkflowState) (t : String) :
    (s.add_failed_task t).completed_tasks = s.completed_tasks := by
  unfold add_failed_task; split <;> rfl

@[simp] lemma add_error_status (s : WorkflowState) (e : String) :
    (s.add_error e).status = s.status := rfl

@[simp] lemma add_error_iteration_count (s : WorkflowState) (e : String) :
    (s.add_error e).iteration_count = s.iteration_count := rfl

@[simp] lemma add_error_max_iterations (s : WorkflowState) (e : String) :
    (s.add_error e).max_iterations = s.max_iterations := rfl

@[simp] lemma add_error_tester_result (s : WorkflowState) (e : String) :
    (s.add_error e).tester_result = s.tester_result := rfl

@[simp] lemma add_error_debugger_result (s : WorkflowState) (e : String) :
    (s.add_error e).debugger_result = s.debugger_result := rfl

@[simp] lemma add_error_coder_result (s : WorkflowState) (e : String) :
    (s.add_error e).coder_result = s.coder_result := rfl

@[simp] lemma add_error_final_code (s : WorkflowState) (e : String) :
    (s.add_error e).final_code = s.final_code := rfl

@[simp] lemma add_error_final_documentation (s : WorkflowState) (e : String) :
    (s.add_error e).final_documentation = s.final_documentation := rfl

@[simp] lemma add_error_completed_tasks (s : WorkflowState) (e : String) :
    (s.add_error e).completed_tasks = s.completed_tasks := rfl

@[simp] lemma add_error_failed_tasks (s : WorkflowState) (e : String) :
    (s.add_error e).failed_tasks = s.failed_tasks := rfl

@[simp] lemma increment_iteration_iteration_count (s : WorkflowState) :
    s.increment_iteration.iteration_count = s.iteration_count + 1 := rfl

@[simp] lemma increment_iteration_status (s : WorkflowState) :
    s.increment_iteration.status = s.status := rfl

@[simp] lemma increment_iteration_max_iterations (s : WorkflowState) :
    s.increment_iteration.max_iterations = s.max_iterations := rfl

@[simp] lemma increment_iteration_tester_result (s : WorkflowState) :
    s.increment_iteration.tester_result = s.tester_result := rfl

@[simp] lemma increment_iteration_final_code (s : WorkflowState) :
    s.increment_iteration.final_code = s.final_code := rfl

@[simp] lemma increment_iteration_final_documentation (s : WorkflowState) :
    s.increment_iteration.final_documentation = s.final_documentation := rfl

@[simp] lemma increment_iteration_completed_tasks (s : WorkflowState) :
    s.increment_iteration.completed_tasks = s.completed_tasks := rfl

@[simp] lemma increment_iteration_failed_tasks (s : WorkflowState) :
    s.increment_iteration.failed_tasks = s.failed_tasks := rfl

lemma add_completed_task_nodup (s : WorkflowState) (t : String)
    (h : s.completed_tasks.Nodup) : (s.add_completed_task t).completed_tasks.Nodup := by
  unfold add_completed_task
  split
  · exact h
  · next hmem =>
      simpa [List.nodup_append, List.disjoint_singleton] using ⟨h, hmem⟩

lemma add_failed_task_nodup (s : WorkflowState) (t : String)
    (h : s.failed_tasks.Nodup) : (s.add_failed_task t).failed_tasks.Nodup := by
  unfold add_failed_task
  split
  · exact h
  · next hmem =>
      simpa [List.nodup_append, List.disjoint_singleton] using ⟨h, hmem⟩

end WorkflowState

/-! ## Field-preservation lemmas for the stage nodes -/

@[simp] lemma planning_node_status (c : Except String String) (s : WorkflowState) :
    (planning_node c s).status = .planning := by
  cases c <;> simp [planning_node]

@[simp] lemma planning_node_iteration_count (c : Except String String) (s : WorkflowState) :
    (planning_node c s).iteration_count = s.iteration_count := by
  cases c <;> simp [planning_node]

@[simp] lemma planning_node_max_iterations (c : Except String String) (s : WorkflowState) :
    (planning_node c s).max_iterations = s.max_iterations := by
  cases c <;> simp [planning_node]

@[simp] lemma planning_node_tester_result (c : Except String String) (s : WorkflowState) :
    (planning_node c s).tester_result = s.tester_result := by
  cases c <;> simp [planning_node]

@[simp] lemma planning_node_final_code (c : Except String String) (s : WorkflowState) :
    (planning_node c s).final_code = s.final_code := by
  cases c <;> simp [planning_node]

@[simp] lemma planning_node_final_documentation (c : Except String String) (s : WorkflowState) :
    (planning_node c s).final_documentation = s.final_documentation := by
  cases c <;> simp [planning_node]

@[simp] lemma coding_node_status (c : Except String CoderResult) (s : WorkflowState) :
    (coding_node c s).status = .coding := by
  cases c <;> simp [coding_node]

@[simp] lemma coding_node_iteration_count (c : Except String CoderResult) (s : WorkflowState) :
    (coding_node c s).iteration_count = s.iteration_count := by
  cases c <;> simp [coding_node]

@[simp] lemma coding_node_max_iterations (c : Except String CoderResult) (s : WorkflowState) :
    (coding_node c s).max_iterations = s.max_iterations := by
  cases c <;> simp [coding_node]

@[simp] lemma coding_node_tester_result (c : Except String CoderResult) (s : WorkflowState) :
    (coding_node c s).tester_result = s.tester_result := by
  cases c <;> simp [coding_node]

@[simp] lemma coding_node_final_code (c : Except String CoderResult) (s : WorkflowState) :
    (coding_node c s).final_code = s.final_code := by
  cases c <;> simp [coding_node]

@[simp] lemma coding_node_final_documentation (c : Except String CoderResult) (s : WorkflowState) :
    (coding_node c s).final_documentation = s.final_documentation := by
  cases c <;> simp [coding_node]

@[simp] lemma testing_node_status (c : Except String TesterResult) (s : WorkflowState) :
    (testing_node c s).status = .testing := by
  cases c <;> simp [testing_node]

@[simp] lemma testing_node_iteration_count (c : Except String TesterResult) (s : WorkflowState) :
    (testing_node c s).iteration_count = s.iteration_count := by
  cases c <;> simp [testing_node]

@[simp] lemma testing_node_max_iterations (c : Except String TesterResult) (s : WorkflowState) :
    (testing_node c s).max_iterations = s.max_iterations := by
  cases c <;> simp [testing_node]

@[simp] lemma testing_node_final_code (c : Except String TesterResult) (s : WorkflowState) :
    (testing_node c s).final_code = s.final_code := by
  cases c <;> simp [testing_node]

@[simp] lemma testing_node_final_documentation (c : Except String TesterResult) (s : WorkflowState) :
    (testing_node c s).final_documentation = s.final_documentation := by
  cases c <;> simp [testing_node]

@[simp] lemma testing_node_ok_tester_result (t : TesterResult) (s : WorkflowState) :
    (testing_node (Except.ok t) s).tester_result = some t := by
  simp [testing_node]

@[simp] lemma testing_node_error_tester_result (e : String) (s : WorkflowState) :
    (testing_node (Except.error e) s).tester_result = s.tester_result := by
  simp [testing_node]

@[simp] lemma debugging_node_status (c : Except String DebuggerResult) (s : WorkflowState) :
    (debugging_node c s).status = .debugging := by
  cases c <;> simp [debugging_node] <;> split <;> simp

@[simp] lemma debugging_node_max_iterations (c : Except String DebuggerResult) (s : WorkflowState) :
    (debugging_node c s).max_iterations = s.max_iterations := by
  cases c <;> simp [debugging_node] <;> split <;> simp

@[simp] lemma debugging_node_tester_result (c : Except String DebuggerResult) (s : WorkflowState) :
    (debugging_node c s).tester_result = s.tester_result := by
  cases c <;> simp [debugging_node] <;> split <;> simp

@[simp] lemma debugging_node_final_code (c : Except String DebuggerResult) (s : WorkflowState) :
    (debugging_node c s).final_code = s.final_code := by
  cases c <;> simp [debugging_node] <;> split <;> simp

@[simp] lemma debugging_node_final_documentation (c : Except String DebuggerResult)
    (s : WorkflowState) :
    (debugging_node c s).final_documentation = s.final_documentation := by
  cases c <;> simp [debugging_node] <;> split <;> simp

@[simp] lemma debugging_node_ok_iteration_count (r : DebuggerResult) (s : WorkflowState) :
    (debugging_node (Except.ok r) s).iteration_count = s.iteration_count + 1 := by
  simp [debugging_node]; split <;> simp

@[simp] lemma debugging_node_error_iteration_count (e : String) (s : WorkflowState) :
    (debugging_node (Except.error e) s).iteration_count = s.iteration_count := by
  simp [debugging_node]

@[simp] lemma documenting_node_ok_status (r : DocumenterResult) (s : WorkflowState) :
    (documenting_node (Except.ok r) s).status = .completed := by
  simp [documenting_node]

@[simp] lemma documenting_node_error_status (e : String) (s : WorkflowState) :
    (documenting_node (Except.error e) s).status = .documenting := by
  simp [documenting_node]

@[simp] lemma documenting_node_iteration_count (c : Except String DocumenterResult)
    (s : WorkflowState) :
    (documenting_node c s).iteration_count = s.iteration_count := by
  cases c <;> simp [documenting_node]

@[simp] lemma documenting_node_max_iterations (c : Except String DocumenterResult)
    (s : WorkflowState) :
    (documenting_node c s).max_iterations = s.max_iterations := by
  cases c <;> simp [documenting_node]

@[simp] lemma documenting_node_tester_result (c : Except String DocumenterResult)
    (s : WorkflowState) :
    (documenting_node c s).tester_result = s.tester_result := by
  cases c <;> simp [documenting_node]

@[simp] lemma documenting_node_error_final_code (e : String) (s : WorkflowState) :
    (documenting_node (Except.error e) s).final_code = s.final_code := by
  simp [documenting_node]

@[simp] lemma documenting_node_error_final_documentation (e : String) (s : WorkflowState) :
    (documenting_node (Except.error e) s).final_documentation = s.final_documentation := by
  simp [documenting_node]

lemma planning_node_nodup (c : Except String String) (s : WorkflowState)
    (hc : s.completed_tasks.Nodup) (hf : s.failed_tasks.Nodup) :
    (planning_node c s).completed_tasks.Nodup ∧ (planning_node c s).failed_tasks.Nodup := by
  cases c <;> simp [planning_node] <;>
    exact ⟨by first
            | exact WorkflowState.add_completed_task_nodup _ _ hc
            | simpa using hc,
          by first
            | exact WorkflowState.add_failed_task_nodup _ _ hf
            | simpa using hf⟩

lemma coding_node_nodup (c : Except String CoderResult) (s : WorkflowState)
    (hc : s.completed_tasks.Nodup) (hf : s.failed_tasks.Nodup) :
    (coding_node c s).completed_tasks.Nodup ∧ (coding_node c s).failed_tasks.Nodup := by
  cases c <;> simp [coding_node] <;>
    exact ⟨by first
            | exact WorkflowState.add_completed_task_nodup _ _ hc
            | simpa using hc,
          by first
            | exact WorkflowState.add_failed_task_nodup _ _ hf
            | simpa using hf⟩

lemma testing_node_nodup (c : Except String TesterResult) (s : WorkflowState)
    (hc : s.completed_tasks.Nodup) (hf : s.failed_tasks.Nodup) :
    (testing_node c s).completed_tasks.Nodup ∧ (testing_node c s).failed_tasks.Nodup := by
  cases c <;> simp [testing_node] <;>
    exact ⟨by first
            | exact WorkflowState.add_completed_task_nodup _ _ hc
            | simpa using hc,
          by first
            | exact WorkflowState.add_failed_task_nodup _ _ hf
            | simpa using hf⟩

lemma debugging_node_nodup (c : Except String DebuggerResult) (s : WorkflowState)
    (hc : s.completed_tasks.Nodup) (hf : s.failed_tasks.Nodup) :
    (debugging_node c s).completed_tasks.Nodup ∧ (debugging_node c s).failed_tasks.Nodup := by
  cases c
  · constructor
    · simp only [debugging_node]
      simpa using hc
    · simp only [debugging_node]
      exact WorkflowState.add_failed_task_nodup _ _ (by simpa using hf)
  · constructor
    · simp only [debugging_node, WorkflowState.increment_iteration_completed_tasks]
      split
      all_goals exact WorkflowState.add_completed_task_nodup _ _ (by simpa using hc)
    · simp only [debugging_node, WorkflowState.increment_iteration_failed_tasks]
      split
      all_goals simpa using hf

lemma documenting_node_nodup (c : Except String DocumenterResult) (s : WorkflowState)
    (hc : s.completed_tasks.Nodup) (hf : s.failed_tasks.Nodup) :
    (documenting_node c s).completed_tasks.Nodup ∧ (documenting_node c s).failed_tasks.Nodup := by
  cases c <;> simp [documenting_node] <;>
    exact ⟨by first
            | exact WorkflowState.add_completed_task_nodup _ _ hc
            | simpa using hc,
          by first
            | exact WorkflowState.add_failed_task_nodup _ _ hf
            | simpa using hf⟩

/-! ## Interpreter helper lemmas -/

lemma runFuel_succ (o : Oracle) (fuel : Nat) (d : Driver) :
    runFuel o (fuel + 1) d =
      if d.node = Node.END then d else runFuel o fuel (stepRun o d) := by
  by_cases h : d.node = Node.END <;> simp [runFuel, h]

lemma runFuel_end (o : Oracle) (fuel : Nat) (d : Driver) (h : d.node = Node.END) :
    runFuel o fuel d = d := by
  cases fuel with
  | zero => rfl
  | succ n => rw [runFuel_succ]; simp [h]

lemma runFuel_add (o : Oracle) (a b : Nat) (d : Driver) :
    runFuel o (a + b) d = runFuel o b (runFuel o a d) := by
  induction a generalizing d with
  | zero => simp [runFuel]
  | succ n ih =>
      have harr : n + 1 + b = (n + b) + 1 := by omega
      rw [harr, runFuel_succ]
      by_cases h : d.node = Node.END
      · rw [if_pos h, runFuel_end o (n + 1) d h, runFuel_end o b d h]
      · rw [if_neg h, ih, runFuel_succ, if_neg h]

lemma runFuel_inv (o : Oracle) (P : Driver → Prop)
    (hstep : ∀ d, P d → P (stepRun o d)) :
    ∀ (fuel : Nat) (d : Driver), P d → P (runFuel o fuel d) := by
  intro fuel
  induction fuel with
  | zero => intro d h; exact h
  | succ n ih =>
      intro d h
      unfold runFuel
      split
      · exact h
      · exact ih _ (hstep d h)

/-! ## Routing lemmas -/

lemma route_after_testing_debugging_can_continue (s : WorkflowState)
    (h : route_after_testing s = "debugging") : s.iteration_count < s.max_iterations := by
  unfold route_after_testing at h
  by_cases h1 : (s.status == WorkflowStatus.failed) = true
  · simp [h1] at h
  · by_cases h2 : s.can_continue_iteration = true
    · simpa [WorkflowState.can_continue_iteration] using h2
    · simp [h1, h2] at h

lemma route_after_testing_passed (s : WorkflowState)
    (h1 : s.status ≠ .failed) (h2 : s.tester_result = some ⟨some "passed"⟩) :
    route_after_testing s = "documenting" := by
  unfold route_after_testing
  have hb : (s.status == WorkflowStatus.failed) = false := by
    simpa using h1
  by_cases hc : s.can_continue_iteration = true
  · have hd : should_debug s = false := by
      simp [should_debug, WorkflowState.needs_debugging, h2]
    have hg : should_generate_documentation s = true := by
      simp [should_generate_documentation, h2]
    simp [hb, hc, hd, hg]
  · have hc' : s.can_continue_iteration = false := by
      simpa using hc
    simp [hb, hc']

/-! ## Step-preservation of the run invariants -/

lemma stepRun_iter_inv (o : Oracle) (d : Driver)
    (h1 : d.state.iteration_count ≤ d.state.max_iterations)
    (h2 : d.node = Node.debugging → d.state.iteration_count < d.state.max_iterations) :
    (stepRun o d).state.iteration_count ≤ (stepRun o d).state.max_iterations ∧
      ((stepRun o d).node = Node.debugging →
        (stepRun o d).state.iteration_count < (stepRun o d).state.max_iterations) := by
  obtain ⟨nd, st, tv, dv, tr⟩ := d
  cases nd
  case planning =>
    refine ⟨by simpa [stepRun] using h1, ?_⟩
    intro h
    simp [stepRun] at h
  case coding =>
    refine ⟨by simpa [stepRun] using h1, ?_⟩
    intro h
    simp [stepRun] at h
  case testing =>
    refine ⟨by simpa [stepRun] using h1, ?_⟩
    intro h
    simp only [stepRun] at h ⊢
    by_cases hr : route_after_testing (testing_node (o.tester tv) st) = "debugging"
    · have hlt := route_after_testing_debugging_can_continue _ hr
      simpa using hlt
    · exfalso
      simp only [beq_iff_eq, hr, if_false] at h
      split at h <;> simp_all
  case debugging =>
    have hlt : st.iteration_count < st.max_iterations := by simpa using h2 rfl
    constructor
    · simp only [stepRun]
      cases hdc : o.debugger dv with
      | ok r => simp [hdc]; omega
      | error e => simp [hdc]; omega
    · intro h
      exfalso
      simp only [stepRun] at h
      split at h
      · exact absurd h (by simp)
      · split at h
        · exact absurd h (by simp)
        · exact absurd h (by simp)
  case documenting =>
    refine ⟨by simpa [stepRun] using h1, ?_⟩
    intro h
    simp [stepRun] at h
  case END =>
    exact ⟨h1, fun h => by simp [stepRun] at h⟩

lemma stepRun_max_iterations (o : Oracle) (d : Driver) :
    (stepRun o d).state.max_iterations = d.state.max_iterations := by
  obtain ⟨nd, st, tv, dv, tr⟩ := d
  cases nd <;> simp [stepRun]

lemma stepRun_dvisits_eq_iter (o : Oracle)
    (hok : ∀ n, ∃ r, o.debugger n = Except.ok r) (d : Driver)
    (h : d.dvisits = d.state.iteration_count) :
    (stepRun o d).dvisits = (stepRun o d).state.iteration_count := by
  obtain ⟨nd, st, tv, dv, tr⟩ := d
  simp only [] at h
  have h' : dv = st.iteration_count := h
  cases nd
  case debugging =>
    obtain ⟨r, hr⟩ := hok dv
    simp [stepRun, hr]
    omega
  all_goals simpa [stepRun] using h'

lemma stepRun_nodup (o : Oracle) (d : Driver)
    (hc : d.state.completed_tasks.Nodup) (hf : d.state.failed_tasks.Nodup) :
    (stepRun o d).state.completed_tasks.Nodup ∧ (stepRun o d).state.failed_tasks.Nodup := by
  obtain ⟨nd, st, tv, dv, tr⟩ := d
  cases nd
  case planning => simpa [stepRun] using planning_node_nodup o.planner st hc hf
  case coding => simpa [stepRun] using coding_node_nodup o.coder st hc hf
  case testing => simpa [stepRun] using testing_node_nodup (o.tester tv) st hc hf
  case debugging => simpa [stepRun] using debugging_node_nodup (o.debugger dv) st hc hf
  case documenting => simpa [stepRun] using documenting_node_nodup o.documenter st hc hf
  case END => exact ⟨hc, hf⟩

lemma stepRun_doc_error_inv (o : Oracle) (e : String)
    (hdoc : o.documenter = Except.error e) (d : Driver)
    (h1 : d.state.final_code = none) (h2 : d.state.final_documentation = none)
    (h3 : d.state.status ≠ WorkflowStatus.completed) :
    (stepRun o d).state.final_code = none ∧
      (stepRun o d).state.final_documentation = none ∧
      (stepRun o d).state.status ≠ WorkflowStatus.completed := by
  obtain ⟨nd, st, tv, dv, tr⟩ := d
  have h1' : st.final_code = none := h1
  have h2' : st.final_documentation = none := h2
  cases nd
  case planning => simp [stepRun, h1', h2']
  case coding => simp [stepRun, h1', h2']
  case testing => simp [stepRun, h1', h2']
  case debugging => simp [stepRun, h1', h2']
  case documenting => simp [stepRun, hdoc, h1', h2']
  case END => exact ⟨h1, h2, h3⟩

/-! ## Concrete oracles and states used by the claim theorems -/

/-- Oracle for Scenario A: every collaborator succeeds, every verification
reports a failed outcome. -/
def oracleAllFailVerify : Oracle :=
  { planner := .ok "plan"
    coder := .ok { code := some "code" }
    tester := fun _ => .ok { status := some "failed" }
    debugger := fun _ => .ok { fixed_code := some "fix" }
    documenter := .ok { readme := some "readme" } }

/-- Oracle where every verification fails and the debugger collaborator raises
on every visit. -/
def oracleDebuggerRaises : Oracle :=
  { oracleAllFailVerify with debugger := fun _ => .error "boom" }

/-- Oracle where every verification reports a passed outcome. -/
def oracleVerifyPasses : Oracle :=
  { oracleAllFailVerify with tester := fun _ => .ok { status := some "passed" } }

/-- Oracle where the tester collaborator raises on every visit. -/
def oracleTesterRaises : Oracle :=
  { oracleAllFailVerify with tester := fun _ => .error "tboom" }

/-- Oracle where verification passes and the documenter collaborator raises. -/
def oracleDocumenterRaises : Oracle :=
  { oracleVerifyPasses with documenter := .error "doom" }

/-- State with both a truthy debugger artifact and a truthy coder artifact. -/
def c5StateA : WorkflowState :=
  { workflow_id := "w", user_request := "r"
    debugger_result := some { fixed_code := some "f" }
    coder_result := some { code := some "x" } }

/-- State with no debugger result and a truthy coder artifact. -/
def c5StateB : WorkflowState :=
  { workflow_id := "w", user_request := "r"
    debugger_result := none
    coder_result := some { code := some "x" } }

/-- State with an absent `fixed_code` key and no coder result. -/
def c5StateC : WorkflowState :=
  { workflow_id := "w", user_request := "r"
    debugger_result := some { fixed_code := none }
    coder_result := none }

/-- State with a present but empty `fixed_code` and a truthy coder artifact. -/
def c5CexState : WorkflowState :=
  { workflow_id := "w", user_request := "r"
    debugger_result := some { fixed_code := some "" }
    coder_result := some { code := some "x" } }

/-- Post-testing state whose verify result records a passed outcome. -/
def c4WitState : WorkflowState :=
  { workflow_id := "w", user_request := "r"
    status := .testing
    tester_result := some { status := some "passed" }
    iteration_count := 0
    max_iterations := 3 }

/-! ## Claim theorems -/

/-- C2: for every run driven by the orchestrator from the initial state
(`iteration_count = 0`), after every stage execution and routing transition
(i.e. after any number of interpreter steps), `0 ≤ iteration_count` and
`iteration_count ≤ max_iterations` hold. -/
theorem c2_iteration_count_bounded (o : Oracle) (wid req : String) (mi fuel : Nat) :
    0 ≤ (runFuel o fuel (initDriver wid req mi)).state.iteration_count ∧
      (runFuel o fuel (initDriver wid req mi)).state.iteration_count ≤
        (runFuel o fuel (initDriver wid req mi)).state.max_iterations := by
  refine ⟨Nat.zero_le _, ?_⟩
  have hinv := runFuel_inv o
      (fun d => d.state.iteration_count ≤ d.state.max_iterations ∧
        (d.node = Node.debugging →
          d.state.iteration_count < d.state.max_iterations))
      (fun d hd => stepRun_iter_inv o d hd.1 hd.2) fuel (initDriver wid req mi)
      ⟨by simp [initDriver, initialState], by intro h; simp [initDriver] at h⟩
  exact hinv.1

/-- C6: `needs_debugging` is true iff the most recent verify result is present
and records a failure outcome and iteration can continue, where
`can_continue_iteration` is `iteration_count < max_iterations`. -/
theorem c6_needs_repair_characterization (s : WorkflowState) :
    (s.needs_debugging = true ↔
      ((∃ t, s.tester_result = some t ∧ t.status = some "failed") ∧
        s.iteration_count < s.max_iterations)) ∧
    (s.can_continue_iteration = true ↔ s.iteration_count < s.max_iterations) := by
  constructor
  · unfold WorkflowState.needs_debugging
    cases ht : s.tester_result with
    | none => simp [ht, WorkflowState.can_continue_iteration]
    | some t => simp [ht, WorkflowState.can_continue_iteration]
  · simp [WorkflowState.can_continue_iteration]

/-- C8: `add_completed_task` and `add_failed_task` are idempotent set-inserts,
and along every run from the initial state `completed_tasks` and
`failed_tasks` are duplicate-free after every transition. -/
theorem c8_task_insert_idempotent_nodup :
    (∀ (s : WorkflowState) (t : String),
        (s.add_completed_task t).add_completed_task t = s.add_completed_task t ∧
        (s.add_failed_task t).add_failed_task t = s.add_failed_task t) ∧
    (∀ (o : Oracle) (wid req : String) (mi fuel : Nat),
        (runFuel o fuel (initDriver wid req mi)).state.completed_tasks.Nodup ∧
        (runFuel o fuel (initDriver wid req mi)).state.failed_tasks.Nodup) := by
  constructor
  · intro s t
    constructor
    · have hmem : t ∈ (s.add_completed_task t).completed_tasks := by
        unfold WorkflowState.add_completed_task
        split
        · assumption
        · simp
      rw [WorkflowState.add_completed_task, if_pos hmem]
    · have hmem : t ∈ (s.add_failed_task t).failed_tasks := by
        unfold WorkflowState.add_failed_task
        split
        · assumption
        · simp
      rw [WorkflowState.add_failed_task, if_pos hmem]
  · intro o wid req mi fuel
    exact runFuel_inv o
      (fun d => d.state.completed_tasks.Nodup ∧ d.state.failed_tasks.Nodup)
      (fun d hd => stepRun_nodup o d hd.1 hd.2) fuel (initDriver wid req mi)
      ⟨by simp [initDriver, initialState], by simp [initDriver, initialState]⟩

/-- C9: an orchestrator-level fault (an exception escaping the graph
execution) is caught and turned into a result record with `success = false`,
`status = "failed"`, and the fault message in `error_history`; `execute` is a
total function of the outcome, so the exception never propagates. -/
theorem c9_orchestrator_fault_caught (e wid : String) :
    (execute (Except.error e) wid).success = false ∧
    (execute (Except.error e) wid).status = "failed" ∧
    (execute (Except.error e) wid).error_history = ["工作流执行异常: " ++ e] :=
  ⟨rfl, rfl, rfl⟩

/-- C1 counterexample: with `max_iterations = 1` and a debugger collaborator
that raises on every visit, 20 interpreter steps make 9 repair visits while
`iteration_count` stays 0 and the run has not terminated — so a repair visit
whose collaborator raises does not increment `iteration_count`, and the
verify↔repair cycle is not bounded by `max_iterations` repair visits. -/
theorem c1_counterexample :
    (runFuel oracleDebuggerRaises 20 (initDriver "w" "r" 1)).dvisits = 9 ∧
    (runFuel oracleDebuggerRaises 20 (initDriver "w" "r" 1)).state.iteration_count = 0 ∧
    (runFuel oracleDebuggerRaises 20 (initDriver "w" "r" 1)).state.max_iterations = 1 ∧
    (runFuel oracleDebuggerRaises 20 (initDriver "w" "r" 1)).node ≠ Node.END := by
  refine ⟨by decide, by decide, by decide, by decide⟩

/-- C1 (amended): `iteration_count` is incremented exactly once per repair
visit in which the debugger collaborator succeeds and is unchanged when the
collaborator raises; consequently, when every debugger call succeeds, the
number of repair visits never exceeds `max_iterations`. -/
theorem c1_repair_increments_on_success :
    (∀ (r : DebuggerResult) (s : WorkflowState),
        (debugging_node (Except.ok r) s).iteration_count = s.iteration_count + 1) ∧
    (∀ (e : String) (s : WorkflowState),
        (debugging_node (Except.error e) s).iteration_count = s.iteration_count) ∧
    (∀ (o : Oracle) (wid req : String) (mi fuel : Nat),
        (∀ n, ∃ r, o.debugger n = Except.ok r) →
        (runFuel o fuel (initDriver wid req mi)).dvisits ≤ mi) := by
  refine ⟨fun r s => by simp, fun e s => by simp, ?_⟩
  intro o wid req mi fuel hok
  have hd := runFuel_inv o (fun d => d.dvisits = d.state.iteration_count)
      (fun d h => stepRun_dvisits_eq_iter o hok d h) fuel (initDriver wid req mi)
      (by simp [initDriver, initialState])
  have hi := runFuel_inv o
      (fun d => d.state.iteration_count ≤ d.state.max_iterations ∧
        (d.node = Node.debugging →
          d.state.iteration_count < d.state.max_iterations))
      (fun d h => stepRun_iter_inv o d h.1 h.2) fuel (initDriver wid req mi)
      ⟨by simp [initDriver, initialState], by intro h; simp [initDriver] at h⟩
  have hm := runFuel_inv o (fun d => d.state.max_iterations = mi)
      (fun d h => by simpa [stepRun_max_iterations] using h) fuel (initDriver wid req mi)
      (by simp [initDriver, initialState])
  have hd' : (runFuel o fuel (initDriver wid req mi)).dvisits =
      (runFuel o fuel (initDriver wid req mi)).state.iteration_count := hd
  have hi' : (runFuel o fuel (initDriver wid req mi)).state.iteration_count ≤
      (runFuel o fuel (initDriver wid req mi)).state.max_iterations := hi.1
  have hm' : (runFuel o fuel (initDriver wid req mi)).state.max_iterations = mi := hm
  omega

/-- C1 witness: the amended bound at a concrete all-success run. -/
theorem c1_witness :
    (runFuel oracleAllFailVerify 50 (initDriver "w" "r" 2)).dvisits ≤ 2 :=
  c1_repair_increments_on_success.2.2 oracleAllFailVerify "w" "r" 2 50
    (fun _ => ⟨{ fixed_code := some "fix" }, rfl⟩)

/-- C3: with `max_iterations = 2`, every verification reporting a failed
outcome and every collaborator succeeding, the executed stage sequence is
planning, coding, testing, debugging, testing, debugging, documenting; the run
terminates with status `completed`, `iteration_count = 2`, and two repair
visits. -/
theorem c3_scenario_a :
    (runFuel oracleAllFailVerify 8 (initDriver "w" "r" 2)).trace =
      [Node.planning, Node.coding, Node.testing, Node.debugging, Node.testing,
        Node.debugging, Node.documenting] ∧
    (runFuel oracleAllFailVerify 8 (initDriver "w" "r" 2)).node = Node.END ∧
    (runFuel oracleAllFailVerify 8 (initDriver "w" "r" 2)).state.status =
      WorkflowStatus.completed ∧
    (runFuel oracleAllFailVerify 8 (initDriver "w" "r" 2)).state.iteration_count = 2 ∧
    (runFuel oracleAllFailVerify 8 (initDriver "w" "r" 2)).dvisits = 2 := by
  refine ⟨by decide, by decide, by decide, by decide, by decide⟩

/-- C4 counterexample: a run in which the tester collaborator raises reaches a
post-testing state whose status is `testing` (not failed), whose iteration
ceiling is not reached, and which records no failure outcome (no verify result
at all) — yet the route after verifying is "end": the run terminates without
ever visiting documenting. -/
theorem c4_counterexample :
    (runFuel oracleTesterRaises 10 (initDriver "w" "r" 3)).node = Node.END ∧
    Node.documenting ∉ (runFuel oracleTesterRaises 10 (initDriver "w" "r" 3)).trace ∧
    (runFuel oracleTesterRaises 10 (initDriver "w" "r" 3)).state.status =
      WorkflowStatus.testing ∧
    (runFuel oracleTesterRaises 10 (initDriver "w" "r" 3)).state.tester_result = none ∧
    (runFuel oracleTesterRaises 10 (initDriver "w" "r" 3)).state.can_continue_iteration
      = true := by
  refine ⟨by decide, by decide, by decide, by decide, by decide⟩

/-- C4 (amended): after the verify stage, when status is not failed, the
iteration ceiling is not reached, and the verify result does not record a
failure outcome, the routing function routes to documenting iff the verify
result is present and records a passed outcome; when the verify result is
absent or records some other outcome it routes to "end". -/
theorem c4_route_documenting_iff_passed (s : WorkflowState)
    (h1 : s.status ≠ WorkflowStatus.failed)
    (h2 : s.can_continue_iteration = true)
    (h3 : ∀ t, s.tester_result = some t → t.status ≠ some "failed") :
    (route_after_testing s = "documenting" ↔
      ∃ t, s.tester_result = some t ∧ t.status = some "passed") ∧
    ((¬ ∃ t, s.tester_result = some t ∧ t.status = some "passed") →
      route_after_testing s = "end") := by
  have hb : (s.status == WorkflowStatus.failed) = false := by simpa using h1
  have hdebug : should_debug s = false := by
    unfold should_debug WorkflowState.needs_debugging
    cases ht : s.tester_result with
    | none => simp
    | some t => simp [h3 t ht]
  have hgen : should_generate_documentation s = true ↔
      ∃ t, s.tester_result = some t ∧ t.status = some "passed" := by
    unfold should_generate_documentation
    cases ht : s.tester_result <;> simp [ht]
  have route_eq : route_after_testing s =
      if should_generate_documentation s then "documenting" else "end" := by
    unfold route_after_testing
    simp [hb, h2, hdebug]
  cases hg : should_generate_documentation s with
  | true =>
      have hex : ∃ t, s.tester_result = some t ∧ t.status = some "passed" := hgen.mp hg
      constructor
      · simp [route_eq, hg, hex]
      · intro hne; exact absurd hex hne
  | false =>
      have hnex : ¬ ∃ t, s.tester_result = some t ∧ t.status = some "passed" := by
        intro hex
        have hcontra := hgen.mpr hex
        rw [hg] at hcontra
        exact absurd hcontra (by decide)
      constructor
      · rw [route_eq, hg]
        simp [hnex]
      · intro _
        rw [route_eq, hg]
        simp

/-- C4 witness: a passed verify result under the amendment's hypotheses routes
to documenting. -/
theorem c4_witness : route_after_testing c4WitState = "documenting" :=
  (c4_route_documenting_iff_passed c4WitState (by decide) (by decide)
    (fun t h => by
      simp [c4WitState] at h
      subst h
      decide)).1.mpr ⟨{ status := some "passed" }, rfl, rfl⟩

/-- C5 counterexample: a state whose repair result holds a present but empty
`fixed_code` — the claim requires the repair artifact to be returned, but
`get_latest_code` skips it (Python truthiness) and returns the coder's code. -/
theorem c5_counterexample :
    c5CexState.debugger_result = some { fixed_code := some "" } ∧
    c5CexState.get_latest_code = some "x" ∧
    (some "x" : Option String) ≠ some "" := by
  refine ⟨by decide, by decide, by decide⟩

/-- C5 (amended): `get_latest_code` returns the repair stage's `fixed_code`
when it is present and non-empty, otherwise the implement stage's `code` when
present and non-empty, otherwise `none`; a non-empty repair artifact always
supersedes the implement artifact. -/
theorem c5_latest_code_amended (s : WorkflowState) :
    (∀ (d : DebuggerResult) (fc : String), s.debugger_result = some d →
        d.fixed_code = some fc → fc ≠ "" → s.get_latest_code = some fc) ∧
    ((∀ d, s.debugger_result = some d → pyTruthy d.fixed_code = false) →
      ∀ (c : CoderResult) (cc : String), s.coder_result = some c →
        c.code = some cc → cc ≠ "" → s.get_latest_code = some cc) ∧
    ((∀ d, s.debugger_result = some d → pyTruthy d.fixed_code = false) →
      (∀ c, s.coder_result = some c → pyTruthy c.code = false) →
      s.get_latest_code = none) := by
  refine ⟨?_, ?_, ?_⟩
  · intro d fc hd hfc hne
    have ht : pyTruthy (some fc) = true := by simp [pyTruthy, hne]
    unfold WorkflowState.get_latest_code
    simp [hd, hfc, ht]
  · intro hdf c cc hc hcc hne
    have ht : pyTruthy (some cc) = true := by simp [pyTruthy, hne]
    unfold WorkflowState.get_latest_code
    cases hd : s.debugger_result with
    | none => simp [hc, hcc, ht]
    | some d => simp [hdf d hd, hc, hcc, ht]
  · intro hdf hcf
    unfold WorkflowState.get_latest_code
    cases hd : s.debugger_result with
    | none =>
        cases hc : s.coder_result with
        | none => rfl
        | some c => simp [hcf c hc]
    | some d =>
        cases hc : s.coder_result with
        | none => simp [hdf d hd]
        | some c => simp [hdf d hd, hcf c hc]

/-- C5 witness: the amended rule evaluated on states with each combination of
artifacts present or absent. -/
theorem c5_witness :
    c5StateA.get_latest_code = some "f" ∧
    c5StateB.get_latest_code = some "x" ∧
    c5StateC.get_latest_code = none :=
  ⟨(c5_latest_code_amended c5StateA).1 _ "f" rfl rfl (by decide),
   (c5_latest_code_amended c5StateB).2.1
      (fun d h => by simp [c5StateB] at h) _ "x" rfl rfl (by decide),
   (c5_latest_code_amended c5StateC).2.2
      (fun d h => by
        simp [c5StateC] at h
        subst h
        rfl)
      (fun c h => by simp [c5StateC] at h)⟩

/-- C7: in every run whose first verify attempt reports a passed outcome, the
repair stage is never visited (no debugging step in the trace, zero debugging
visits) and `iteration_count` is 0 at run termination. -/
theorem c7_first_verify_passed (o : Oracle) (wid req : String) (mi fuel : Nat)
    (hpass : o.tester 0 = Except.ok { status := some "passed" })
    (hfuel : 4 ≤ fuel) :
    (runFuel o fuel (initDriver wid req mi)).node = Node.END ∧
    (runFuel o fuel (initDriver wid req mi)).dvisits = 0 ∧
    (runFuel o fuel (initDriver wid req mi)).state.iteration_count = 0 ∧
    Node.debugging ∉ (runFuel o fuel (initDriver wid req mi)).trace := by
  obtain ⟨k, rfl⟩ : ∃ k, fuel = 4 + k := ⟨fuel - 4, by omega⟩
  have hs3tester :
      (testing_node (o.tester 0)
        (coding_node o.coder
          (planning_node o.planner (initialState wid req mi)))).tester_result =
        some { status := some "passed" } := by
    rw [hpass]; simp
  have hroute :
      route_after_testing
        (testing_node (o.tester 0)
          (coding_node o.coder
            (planning_node o.planner (initialState wid req mi)))) = "documenting" :=
    route_after_testing_passed _ (by simp) hs3tester
  have hstep3 :
      stepRun o
        { node := Node.testing
          state := coding_node o.coder (planning_node o.planner (initialState wid req mi))
          tvisits := 0, dvisits := 0
          trace := [Node.planning, Node.coding] } =
      { node := Node.documenting
        state := testing_node (o.tester 0)
          (coding_node o.coder (planning_node o.planner (initialState wid req mi)))
        tvisits := 1, dvisits := 0
        trace := [Node.planning, Node.coding, Node.testing] } := by
    simp only [stepRun]
    rw [hroute]
    rfl
  have hfinal : runFuel o (4 + k) (initDriver wid req mi) =
      { node := Node.END
        state := documenting_node o.documenter
          (testing_node (o.tester 0)
            (coding_node o.coder (planning_node o.planner (initialState wid req mi))))
        tvisits := 1, dvisits := 0
        trace := [Node.planning, Node.coding, Node.testing, Node.documenting] } := by
    rw [runFuel_add]
    have h4 : runFuel o 4 (initDriver wid req mi) =
        runFuel o 1 (stepRun o
          { node := Node.testing
            state := coding_node o.coder (planning_node o.planner (initialState wid req mi))
            tvisits := 0, dvisits := 0
            trace := [Node.planning, Node.coding] }) := rfl
    rw [h4, hstep3]
    exact runFuel_end o k _ rfl
  rw [hfinal]
  refine ⟨rfl, rfl, by simp [initialState], by simp⟩

/-- C7 witness: the passed-first-verify run at a concrete oracle. -/
theorem c7_witness :
    (runFuel oracleVerifyPasses 10 (initDriver "w" "r" 3)).node = Node.END ∧
    (runFuel oracleVerifyPasses 10 (initDriver "w" "r" 3)).dvisits = 0 ∧
    (runFuel oracleVerifyPasses 10 (initDriver "w" "r" 3)).state.iteration_count = 0 ∧
    Node.debugging ∉ (runFuel oracleVerifyPasses 10 (initDriver "w" "r" 3)).trace :=
  c7_first_verify_passed oracleVerifyPasses "w" "r" 3 10 rfl (by omega)

/-- C10: when the documenter collaborator raises, the documenting step still
goes to `END` through the unconditional edge with status left at the
non-terminal value `documenting` (status becomes `completed` only on
documenter success), and the reported result has `success = false` with
`final_code` and `final_documentation` still `none`. -/
theorem c10_documenter_raise_behavior (o : Oracle) (e : String) (wid req : String)
    (mi fuel : Nat) (hdoc : o.documenter = Except.error e) :
    (∀ d : Driver, d.node = Node.documenting →
        (stepRun o d).node = Node.END ∧
        (stepRun o d).state.status = WorkflowStatus.documenting) ∧
    (∀ (r : DocumenterResult) (s : WorkflowState),
        (documenting_node (Except.ok r) s).status = WorkflowStatus.completed) ∧
    (runFuel o fuel (initDriver wid req mi)).state.final_code = none ∧
    (runFuel o fuel (initDriver wid req mi)).state.final_documentation = none ∧
    (execute (Except.ok ((runFuel o fuel (initDriver wid req mi)).state)) wid).success
      = false := by
  have hinv := runFuel_inv o
      (fun d => d.state.final_code = none ∧ d.state.final_documentation = none ∧
        d.state.status ≠ WorkflowStatus.completed)
      (fun d h => stepRun_doc_error_inv o e hdoc d h.1 h.2.1 h.2.2)
      fuel (initDriver wid req mi)
      ⟨by simp [initDriver, initialState], by simp [initDriver, initialState],
        by simp [initDriver, initialState]⟩
  refine ⟨?_, fun r s => by simp, hinv.1, hinv.2.1, ?_⟩
  · intro d hd
    obtain ⟨nd, st, tv, dv, tr⟩ := d
    have hnd : nd = Node.documenting := hd
    subst hnd
    exact ⟨rfl, by simp [stepRun, hdoc]⟩
  · have hne : (runFuel o fuel (initDriver wid req mi)).state.status ≠
        WorkflowStatus.completed := hinv.2.2
    simp [execute, beq_eq_false_iff_ne]
    exact hne

/-- C10 witness: the documenter-raises run at a concrete oracle. -/
theorem c10_witness :
    (runFuel oracleDocumenterRaises 10 (initDriver "w" "r" 3)).state.final_code = none ∧
    (runFuel oracleDocumenterRaises 10 (initDriver "w" "r" 3)).state.final_documentation
      = none ∧
    (execute (Except.ok ((runFuel oracleDocumenterRaises 10
      (initDriver "w" "r" 3)).state)) "w").success = false := by
  have h := c10_documenter_raise_behavior oracleDocumenterRaises "doom" "w" "r" 3 10 rfl
  exact ⟨h.2.2.1, h.2.2.2.1, h.2.2.2.2⟩

end CodeAgent
